import Mathlib

/-!
Verification of the pg_view metric engine against its specification.

The definitions below are a shallow embedding of the Python sources:
  pg_view/collectors/system_collector.py (SystemStatCollector),
  pg_view/view.py (poll_keys, get_output, do_loop, main),
  pg_view/consts.py (view-state flags).
Python floats are modelled as rationals (the arithmetic in scope is exact),
dictionaries of coerced metric values as association lists from field names
to optional rationals (a key can be bound to None for an absent optional
field, exactly as the transform stage leaves it).
-/

/-- A coerced snapshot: Python dict mapping field names to float-or-None.
An entry `(k, none)` models `d[k] = None` (an optional field that was
missing from the raw source row). -/
def Snapshot : Type := List (String × Option Rat)

/-- `d.get(k)`: `none` when the key is missing or its stored value is None,
`some v` when the key is bound to the float `v`. -/
def snapGet (s : Snapshot) (k : String) : Option Rat :=
  match List.find? (fun kv => kv.1 = k) s with
  | none => none
  | some kv => kv.2

/-- Python truthiness of a float-or-None: `None` and `0.0` are falsy,
every other float is truthy. -/
def pyTruthy : Option Rat → Bool
  | none => false
  | some v => decide (v ≠ 0)

/-- The mutable CPU-time bookkeeping of `SystemStatCollector`
(fields `previos_total_cpu_time`, `current_total_cpu_time`,
`cpu_time_diff`; the first name keeps the source's spelling). -/
structure SystemCpuState where
  previos_total_cpu_time : Rat
  current_total_cpu_time : Rat
  cpu_time_diff : Rat
deriving DecidableEq, Repr

/-- `SystemStatCollector.__init__` sets all three running totals to 0. -/
def initial_cpu_state : SystemCpuState :=
  { previos_total_cpu_time := 0, current_total_cpu_time := 0, cpu_time_diff := 0 }

/-- `sum(v for v in cpu_data.values() if v is not None)`:
the sum of all present (non-None) values of the snapshot. -/
def totalCpuTime (cpu_data : Snapshot) : Rat :=
  (List.filterMap (fun kv => kv.2) cpu_data).sum

/-- `SystemStatCollector._refresh_cpu_time_values(cpu_data)`:
previous total becomes the old current total, the current total becomes
the sum of present values of the new snapshot, and the diff is the new
current total minus the new previous total. -/
def refresh_cpu_time_values (st : SystemCpuState) (cpu_data : Snapshot) : SystemCpuState :=
  let total_cpu_time := totalCpuTime cpu_data
  { previos_total_cpu_time := st.current_total_cpu_time
    current_total_cpu_time := total_cpu_time
    cpu_time_diff := total_cpu_time - st.current_total_cpu_time }

/-- `SystemStatCollector._cpu_time_diff(colname, current, previous)`:
`(current[colname] - previous[colname]) / self.cpu_time_diff` when
`current.get(colname)` and `previous.get(colname)` are truthy and
`self.cpu_time_diff > 0`, else `None`. -/
def cpu_time_diff_fn (st : SystemCpuState) (colname : String)
    (current previous : Snapshot) : Option Rat :=
  if pyTruthy (snapGet current colname) && pyTruthy (snapGet previous colname)
      && decide (0 < st.cpu_time_diff) then
    some (((snapGet current colname).getD 0 - (snapGet previous colname).getD 0)
      / st.cpu_time_diff)
  else
    none

/-- Modelled from the spec: `UnitConverter.time_diff_to_percent` lives in
`pg_view/utils.py`, which is not among the provided sources; the spec says
the percentage is obtained by the output stage's unit conversion (x100),
and the unit test `test_time_diff_to_percent_should_convert_when_ok`
records `time_diff_to_percent(10) == 1000.0` and `None` for `None`. -/
def time_diff_to_percent : Option Rat → Option Rat
  | none => none
  | some v => some (v * 100)

/-- The two-tick scenario snapshot at t0: user=100, sys=50, idle=800, iowait=50
(the /proc/stat `sys` column is the collector's `stime` field). -/
def snapT0 : Snapshot :=
  [("utime", some 100), ("stime", some 50), ("idle", some 800), ("iowait", some 50)]

/-- The two-tick scenario snapshot at t1: user=110, sys=55, idle=830, iowait=55. -/
def snapT1 : Snapshot :=
  [("utime", some 110), ("stime", some 55), ("idle", some 830), ("iowait", some 55)]

/-- Collector state after the first scenario tick (refresh with snapT0). -/
def st1 : SystemCpuState := refresh_cpu_time_values initial_cpu_state snapT0

/-- Collector state after the second scenario tick (refresh with snapT1). -/
def st2 : SystemCpuState := refresh_cpu_time_values st1 snapT1

/-- The view-state flags of pg_view/consts.py, plus the help flag held by the
curses output object (`output.toggle_help()`). -/
structure ViewState where
  display_units : Bool
  freeze : Bool
  filter_aux : Bool
  help : Bool
  autohide_fields : Bool
  notrim : Bool
  realtime : Bool
deriving DecidableEq, Repr

/-- Initial view state per consts.py: `filter_aux = True`, everything else
False; help starts hidden. -/
def initial_view_state : ViewState :=
  { display_units := false, freeze := false, filter_aux := true, help := false
    autohide_fields := false, notrim := false, realtime := false }

/-- `poll_keys(screen, output)` from view.py: a sequence of independent `if`
tests on the read character; each recognized key toggles its flag
(`x = x is False`), and a final test on q returns False (quit); every
path that does not see q returns True. -/
def poll_keys (c : Char) (s : ViewState) : ViewState × Bool :=
  let s := if c = 'u' then { s with display_units := !s.display_units } else s
  let s := if c = 'f' then { s with freeze := !s.freeze } else s
  let s := if c = 's' then { s with filter_aux := !s.filter_aux } else s
  let s := if c = 'h' then { s with help := !s.help } else s
  let s := if c = 'a' then { s with autohide_fields := !s.autohide_fields } else s
  let s := if c = 't' then { s with notrim := !s.notrim } else s
  let s := if c = 'r' then { s with realtime := !s.realtime } else s
  if c = 'q' then (s, false) else (s, true)

/-- The collectors main() registers, identified by kind; the per-instance
collectors carry their cluster's work directory. -/
inductive CollectorKind where
  | host
  | system
  | memory
  | partitions (wd : String)
  | pg (wd : String)
deriving DecidableEq, Repr

/-- main() builds the collector list: HostStatCollector, SystemStatCollector,
MemoryStatCollector, then for each cluster (in list order) its
PartitionStatCollector followed by its PgStatCollector. -/
def build_collectors (clusters : List String) : List CollectorKind :=
  [CollectorKind.host, CollectorKind.system, CollectorKind.memory]
    ++ clusters.flatMap (fun wd => [CollectorKind.partitions wd, CollectorKind.pg wd])

/-- One observable event of the display loop: a collector refresh
(`process_single_collector`) or a collector render (`collector.output`). -/
inductive TickEvent where
  | refresh (c : CollectorKind)
  | output (c : CollectorKind)
deriving DecidableEq, Repr

/-- The event sequence of one do_loop iteration: the first for-loop refreshes
every collector in list order, then the second for-loop renders every
collector in the same list order. -/
def tick_trace (collectors : List CollectorKind) : List TickEvent :=
  collectors.map TickEvent.refresh ++ collectors.map TickEvent.output

/-- The event sequence of the first `n` iterations of do_loop's `while 1`
loop over a fixed collector list (the loop body never mutates the list). -/
def do_loop_trace (collectors : List CollectorKind) : Nat → List TickEvent
  | 0 => []
  | n + 1 => do_loop_trace collectors n ++ tick_trace collectors

/-- Python exceptions that reach main()'s try statement. -/
inductive PyExc where
  | systemExit (code : Nat)
  | keyboardInterrupt
  | cursesError
  | otherError
deriving DecidableEq, Repr

/-- The output methods of pg_view.utils.OUTPUT_METHOD. -/
inductive OutputMethod where
  | curses
  | console
  | json
deriving DecidableEq, Repr

/-- The renderer get_output returns. -/
inductive OutputKind where
  | cursesOutput
  | commonOutput
deriving DecidableEq, Repr

/-- `get_output(method, screen)` from view.py: for the curses method,
`sys.exit(1)` when no parent screen was passed or when the terminal does
not support color (both after logging an error); otherwise CursesOutput;
for every other method, CommonOutput. -/
def get_output (method : OutputMethod) (screen : Option Unit)
    (is_color_supported : Bool) : Except PyExc OutputKind :=
  match method with
  | OutputMethod.curses =>
    match screen with
    | none => Except.error (PyExc.systemExit 1)
    | some _ =>
      if is_color_supported then Except.ok OutputKind.cursesOutput
      else Except.error (PyExc.systemExit 1)
  | _ => Except.ok OutputKind.commonOutput

/-- The body of main()'s try statement, from the `if not clusters` check
onward: with no clusters it logs the error and raises SystemExit(1) before
any collector is built; otherwise the loop runs do_loop, whose renderer
initialization may raise SystemExit(1) before the first tick; a normal
return models leaving the loop on a quit keystroke. -/
def main_try_body (clusters : List String) (method : OutputMethod)
    (screen : Option Unit) (is_color_supported : Bool) : Except PyExc Unit :=
  if clusters.isEmpty then
    Except.error (PyExc.systemExit 1)
  else
    match get_output method screen is_color_supported with
    | Except.error e => Except.error e
    | Except.ok _ => Except.ok ()

/-- The exit status of main() past the try statement. The except clauses
(`except KeyboardInterrupt: pass`, `except curses.error: print(...)` and the
bare `except:` which also catches SystemExit) all fall through to
`finally: sys.exit(0)`, whose SystemExit(0) supersedes any in-flight
exception, so every path through the try statement exits with status 0. -/
def main_exit_code (clusters : List String) (method : OutputMethod)
    (screen : Option Unit) (is_color_supported : Bool) : Nat :=
  match main_try_body clusters method screen is_color_supported with
  | Except.error PyExc.keyboardInterrupt => 0
  | Except.error PyExc.cursesError => 0
  | Except.error _ => 0
  | Except.ok _ => 0

/-- C1: the CPU-time diff function returns `(current[mode] - previous[mode]) /
cpuTimeDiff` exactly when both operands are present with a nonzero value and
`cpuTimeDiff > 0`; in every other case, including a present value equal to 0,
it returns None. -/
theorem cpu_time_diff_characterization (st : SystemCpuState) (colname : String)
    (current previous : Snapshot) :
    (∀ r : Rat, cpu_time_diff_fn st colname current previous = some r ↔
      ∃ c p : Rat, snapGet current colname = some c ∧ snapGet previous colname = some p ∧
        c ≠ 0 ∧ p ≠ 0 ∧ 0 < st.cpu_time_diff ∧ r = (c - p) / st.cpu_time_diff) ∧
    (cpu_time_diff_fn st colname current previous = none ↔
      ¬ ∃ c p : Rat, snapGet current colname = some c ∧ snapGet previous colname = some p ∧
        c ≠ 0 ∧ p ≠ 0 ∧ 0 < st.cpu_time_diff) := by
  constructor
  · intro r
    constructor
    · intro h
      unfold cpu_time_diff_fn at h
      split at h
      · rename_i hcond
        simp only [Bool.and_eq_true, decide_eq_true_eq] at hcond
        obtain ⟨⟨hc, hp⟩, hd⟩ := hcond
        cases hcur : snapGet current colname with
        | none => rw [hcur] at hc; simp [pyTruthy] at hc
        | some c =>
          cases hprev : snapGet previous colname with
          | none => rw [hprev] at hp; simp [pyTruthy] at hp
          | some p =>
            rw [hcur] at hc; rw [hprev] at hp
            simp only [pyTruthy, decide_eq_true_eq] at hc hp
            refine ⟨c, p, rfl, rfl, hc, hp, hd, ?_⟩
            rw [hcur, hprev] at h
            simpa using h.symm
      · exact absurd h (by simp)
    · rintro ⟨c, p, hcur, hprev, hc, hp, hd, hr⟩
      unfold cpu_time_diff_fn
      rw [hcur, hprev]
      simp [pyTruthy, hc, hp, hd, hr]
  · constructor
    · intro h hcond
      obtain ⟨c, p, hcur, hprev, hc, hp, hd⟩ := hcond
      unfold cpu_time_diff_fn at h
      rw [hcur, hprev] at h
      simp [pyTruthy, hc, hp, hd] at h
    · intro h
      unfold cpu_time_diff_fn
      split
      · rename_i hcond
        exfalso
        simp only [Bool.and_eq_true, decide_eq_true_eq] at hcond
        obtain ⟨⟨hc, hp⟩, hd⟩ := hcond
        cases hcur : snapGet current colname with
        | none => rw [hcur] at hc; simp [pyTruthy] at hc
        | some c =>
          cases hprev : snapGet previous colname with
          | none => rw [hprev] at hp; simp [pyTruthy] at hp
          | some p =>
            rw [hcur] at hc; rw [hprev] at hp
            simp only [pyTruthy, decide_eq_true_eq] at hc hp
            exact h ⟨c, p, hcur, hprev, hc, hp, hd⟩
      · rfl

/-- Witness for C1 at concrete inputs from the two-tick scenario. -/
theorem cpu_time_diff_characterization_witness :
    cpu_time_diff_fn ⟨1000, 1050, 50⟩ "utime" snapT1 snapT0 = some (1 / 5) :=
  ((cpu_time_diff_characterization ⟨1000, 1050, 50⟩ "utime" snapT1 snapT0).1 (1 / 5)).mpr
    ⟨110, 100, rfl, rfl, by norm_num, by norm_num, by norm_num, by norm_num⟩

/-- Helper: the collector state after the two scenario refreshes has
previous total 1000, current total 1050 and diff 50. -/
theorem st2_eq : st2 = ⟨1000, 1050, 50⟩ := by
  unfold st2 st1 refresh_cpu_time_values initial_cpu_state totalCpuTime snapT0 snapT1
  norm_num [List.filterMap_cons]

/-- Helper: concrete evaluation of the user-mode CPU diff in the scenario. -/
theorem scenario_utime_eval :
    cpu_time_diff_fn st2 "utime" snapT1 snapT0 = some (1 / 5) := by
  rw [st2_eq]
  have hc : snapGet snapT1 "utime" = some 110 := rfl
  have hp : snapGet snapT0 "utime" = some 100 := rfl
  unfold cpu_time_diff_fn
  rw [hc, hp]
  norm_num [pyTruthy]

/-- Helper: concrete evaluation of the idle-mode CPU diff in the scenario. -/
theorem scenario_idle_eval :
    cpu_time_diff_fn st2 "idle" snapT1 snapT0 = some (3 / 5) := by
  rw [st2_eq]
  have hc : snapGet snapT1 "idle" = some 830 := rfl
  have hp : snapGet snapT0 "idle" = some 800 := rfl
  unfold cpu_time_diff_fn
  rw [hc, hp]
  norm_num [pyTruthy]

/-- C2: in the two-tick scenario (user=100, sys=50, idle=800, iowait=50, then
user=110, sys=55, idle=830, iowait=55), the total-CPU-time update yields
cpuTimeDiff = 50, and the per-mode diff followed by the x100 percentage
conversion yields user% = 20 and idle% = 60. -/
theorem two_tick_scenario :
    st2.cpu_time_diff = 50 ∧
    time_diff_to_percent (cpu_time_diff_fn st2 "utime" snapT1 snapT0) = some 20 ∧
    time_diff_to_percent (cpu_time_diff_fn st2 "idle" snapT1 snapT0) = some 60 := by
  refine ⟨by rw [st2_eq], ?_, ?_⟩
  · rw [scenario_utime_eval]
    unfold time_diff_to_percent
    norm_num
  · rw [scenario_idle_eval]
    unfold time_diff_to_percent
    norm_num

/-- Helper: the sum of the non-None values of a snapshot equals the sum of
the values of its entries filtered to the present ones. -/
theorem totalCpuTime_eq_sum_present (l : Snapshot) :
    totalCpuTime l
      = ((List.filter (fun kv => (kv.2).isSome) l).map (fun kv => (kv.2).getD 0)).sum := by
  induction l with
  | nil => rfl
  | cons kv tl ih =>
    cases h : kv.2 with
    | none =>
      simp only [totalCpuTime, List.filterMap_cons, h, List.filter_cons] at ih ⊢
      simpa using ih
    | some v =>
      simp only [totalCpuTime, List.filterMap_cons, h, List.filter_cons] at ih ⊢
      simp [ih, h]

/-- C3: after the total-CPU-time update with a new snapshot, the previous
total equals the current total held before the call, the current total
equals the sum of all present (non-None) per-mode values of the new
snapshot, and cpuTimeDiff equals the new current total minus the new
previous total. -/
theorem refresh_cpu_time_values_spec (st : SystemCpuState) (cpu_data : Snapshot) :
    (refresh_cpu_time_values st cpu_data).previos_total_cpu_time
        = st.current_total_cpu_time ∧
    (refresh_cpu_time_values st cpu_data).current_total_cpu_time
        = ((List.filter (fun kv => (kv.2).isSome) cpu_data).map (fun kv => (kv.2).getD 0)).sum ∧
    (refresh_cpu_time_values st cpu_data).cpu_time_diff
        = (refresh_cpu_time_values st cpu_data).current_total_cpu_time
          - (refresh_cpu_time_values st cpu_data).previos_total_cpu_time :=
  ⟨rfl, totalCpuTime_eq_sum_present cpu_data, rfl⟩

/-- C5: with an empty previous snapshot (the state right after collector
construction, whose running totals are all zero), the CPU-time diff function
returns None for every field, whatever the current snapshot holds. -/
theorem first_tick_diff_none (st : SystemCpuState) (colname : String)
    (current : Snapshot) :
    initial_cpu_state.cpu_time_diff = 0 ∧
    cpu_time_diff_fn st colname current [] = none := by
  refine ⟨rfl, ?_⟩
  unfold cpu_time_diff_fn
  simp [snapGet, pyTruthy, List.find?]

/-- C6: with identical current and previous snapshots, the CPU-time diff
function yields either 0 or None, never a non-zero value. -/
theorem cpu_time_diff_identical_snapshots (st : SystemCpuState) (colname : String)
    (s : Snapshot) :
    cpu_time_diff_fn st colname s s = some 0 ∨ cpu_time_diff_fn st colname s s = none := by
  unfold cpu_time_diff_fn
  split
  · left
    simp
  · right
    rfl

/-- C9: whenever the CPU-time diff function reaches its division (returns a
value), the divisor cpu_time_diff is strictly positive. -/
theorem cpu_time_diff_divisor_pos (st : SystemCpuState) (colname : String)
    (current previous : Snapshot) (r : Rat)
    (h : cpu_time_diff_fn st colname current previous = some r) :
    0 < st.cpu_time_diff := by
  unfold cpu_time_diff_fn at h
  split at h
  · rename_i hcond
    simp only [Bool.and_eq_true, decide_eq_true_eq] at hcond
    exact hcond.2
  · exact absurd h (by simp)

/-- Witness for C9 at the scenario inputs, where the diff evaluates to 1/5. -/
theorem cpu_time_diff_divisor_pos_witness : 0 < st2.cpu_time_diff :=
  cpu_time_diff_divisor_pos st2 "utime" snapT1 snapT0 (1 / 5) scenario_utime_eval

/-- C10: a present value equal to 0 on either side makes the CPU-time diff
function return None, even with both values present and cpuTimeDiff > 0. -/
theorem cpu_time_diff_zero_value_none (st : SystemCpuState) (colname : String)
    (current previous : Snapshot) (c p : Rat)
    (hcur : snapGet current colname = some c)
    (hprev : snapGet previous colname = some p)
    (_hd : 0 < st.cpu_time_diff) (hzero : c = 0 ∨ p = 0) :
    cpu_time_diff_fn st colname current previous = none := by
  unfold cpu_time_diff_fn
  rw [hcur, hprev]
  rcases hzero with h | h <;> simp [pyTruthy, h]

/-- Witness for C10: an idle counter that is present but 0 in the current
snapshot yields None despite a positive cpuTimeDiff. -/
theorem cpu_time_diff_zero_value_none_witness :
    cpu_time_diff_fn ⟨0, 1000, 1000⟩ "idle" [("idle", some 0)] [("idle", some 5)] = none :=
  cpu_time_diff_zero_value_none ⟨0, 1000, 1000⟩ "idle" [("idle", some 0)] [("idle", some 5)]
    0 5 rfl rfl (by norm_num) (Or.inl rfl)

/-- C7: the key handler toggles display-units on u, freeze on f,
filter-auxiliary on s, help on h, autohide-fields on a, no-trim on t and
realtime on r (returning True each time), returns False on q, and leaves
every flag unchanged returning True on any other keystroke. -/
theorem poll_keys_spec (s : ViewState) (c : Char) :
    poll_keys 'u' s = ({ s with display_units := !s.display_units }, true) ∧
    poll_keys 'f' s = ({ s with freeze := !s.freeze }, true) ∧
    poll_keys 's' s = ({ s with filter_aux := !s.filter_aux }, true) ∧
    poll_keys 'h' s = ({ s with help := !s.help }, true) ∧
    poll_keys 'a' s = ({ s with autohide_fields := !s.autohide_fields }, true) ∧
    poll_keys 't' s = ({ s with notrim := !s.notrim }, true) ∧
    poll_keys 'r' s = ({ s with realtime := !s.realtime }, true) ∧
    poll_keys 'q' s = (s, false) ∧
    (c ∉ (['u', 'f', 's', 'h', 'a', 't', 'r', 'q'] : List Char) →
      poll_keys c s = (s, true)) := by
  refine ⟨rfl, rfl, rfl, rfl, rfl, rfl, rfl, rfl, ?_⟩
  intro hc
  simp only [List.mem_cons, List.not_mem_nil, or_false, not_or] at hc
  obtain ⟨h1, h2, h3, h4, h5, h6, h7, h8⟩ := hc
  simp [poll_keys, h1, h2, h3, h4, h5, h6, h7, h8]

/-- Witness for C7 at the unrecognized keystroke z and the initial view
state: all flags stay unchanged and the handler returns True. -/
theorem poll_keys_spec_witness :
    poll_keys 'z' initial_view_state = (initial_view_state, true) :=
  (poll_keys_spec initial_view_state 'z').2.2.2.2.2.2.2.2 (by decide)

/-- C8: the collector list is host, system, memory, then each registered
cluster's partition collector followed by its instance collector; every
do_loop iteration refreshes all collectors in that list order and then
renders them in the same order, and the per-tick event sequence is the
same on every tick of a run. -/
theorem collector_order_fixed (clusters : List String) (n : Nat) :
    build_collectors clusters
      = CollectorKind.host :: CollectorKind.system :: CollectorKind.memory ::
          clusters.flatMap (fun wd => [CollectorKind.partitions wd, CollectorKind.pg wd]) ∧
    tick_trace (build_collectors clusters)
      = (build_collectors clusters).map TickEvent.refresh
        ++ (build_collectors clusters).map TickEvent.output ∧
    do_loop_trace (build_collectors clusters) n
      = (List.range n).flatMap (fun _ => tick_trace (build_collectors clusters)) := by
  refine ⟨rfl, rfl, ?_⟩
  induction n with
  | zero => rfl
  | succ k ih =>
    rw [do_loop_trace, ih, List.range_succ, List.flatMap_append]
    simp

/-- C4 evaluation: a startup with no monitored instances raises
SystemExit(1) inside main()'s try statement before the tick loop (and so
does renderer initialization with a missing parent screen or a colorless
terminal), but the bare except clause catches the SystemExit and the
finally clause re-exits with sys.exit(0), so the observed process exit
status is 0 on every path — not the non-zero status the specification
announces. -/
theorem main_exit_status_zero :
    main_try_body [] OutputMethod.curses (some ()) true = Except.error (PyExc.systemExit 1) ∧
    get_output OutputMethod.curses none true = Except.error (PyExc.systemExit 1) ∧
    get_output OutputMethod.curses (some ()) false = Except.error (PyExc.systemExit 1) ∧
    main_exit_code [] OutputMethod.curses (some ()) true = 0 ∧
    (∀ (clusters : List String) (method : OutputMethod) (screen : Option Unit)
        (color : Bool), main_exit_code clusters method screen color = 0) := by
  refine ⟨rfl, rfl, rfl, rfl, ?_⟩
  intro clusters method screen color
  unfold main_exit_code
  split <;> rfl
